import Mathlib

/-!
Verification of the DevDash configuration and task engines.

This file gives a shallow embedding, in Lean 4, of the pure core of the
`devdash` repository: the configuration merge machinery
(`src/devdash/config/loader.py`), the configuration schema, defaults and
validator (`schema.py`, `defaults.py`, `validator.py`), the task data model
(`src/devdash/task_model.py`) and the Markdown export
(`src/devdash/task_export.py`).  Python runtime values that can appear in a
parsed TOML document or a stored task record are modelled by the `PyValue`
type; machine floats are modelled by `Rat` (the validator and the merge only
compare values, they never perform float arithmetic, so the embedding is
exact on comparisons); the ambient clock (`datetime.now()`, `date.today()`)
is passed explicitly as a parameter; the file system used by the loader is
modelled by an explicit `FileSystem` record.
-/

namespace DevDash

/-- Runtime values as produced by `tomllib.load` or found in a stored task
record: booleans, integers, floats (modelled as rationals), strings, `None`,
and lists. -/
inductive PyValue where
  | vBool (b : Bool)
  | vInt (n : Int)
  | vFloat (q : Rat)
  | vStr (s : String)
  | vNone
  | vList (xs : List PyValue)

/-- Declared field types occurring in the configuration schema dataclasses:
`bool`, `int`, `float`, `str` and `Optional[str]`. -/
inductive FieldType where
  | tBool
  | tInt
  | tFloat
  | tStr
  | tOptStr
deriving DecidableEq, Repr

/-- Embedding of `ConfigLoader._validate_type` (loader.py lines 202-234).
`bool` accepts only booleans; `int` accepts integers but not booleans
(`isinstance(value, int) and not isinstance(value, bool)`); `float` accepts
integers and floats but not booleans; `str` accepts strings. For an
`Optional[str]` field the check accepts `None` or a string (on the Python
versions the repository's tests run on, `isinstance(value, Optional[str])`
performs exactly this union check; the tests in
`tests/test_config/test_loader.py` pin this behaviour down). -/
def validate_type (value : PyValue) (expected : FieldType) : Bool :=
  match expected with
  | .tBool =>
    match value with
    | .vBool _ => true
    | _ => false
  | .tInt =>
    match value with
    | .vInt _ => true
    | _ => false
  | .tFloat =>
    match value with
    | .vInt _ => true
    | .vFloat _ => true
    | _ => false
  | .tStr =>
    match value with
    | .vStr _ => true
    | _ => false
  | .tOptStr =>
    match value with
    | .vNone => true
    | .vStr _ => true
    | _ => false

/-- Association-list lookup, the embedding of reading a Python `dict`:
`k in d` holds exactly when `dict_find d k` is `some`, and `d[k]` is the
found value. -/
def dict_find {α : Type} (l : List (String × α)) (k : String) : Option α :=
  match l with
  | [] => none
  | (k', v) :: rest => if k' = k then some v else dict_find rest k

/-- Embedding of Python `dict.get(k, d)`. -/
def dict_get {α : Type} (l : List (String × α)) (k : String) (d : α) : α :=
  (dict_find l k).getD d

/-- Embedding of the body of the per-field loop of
`ConfigLoader._merge_section` (loader.py lines 179-198): if the raw section
contains the field name and the value passes `_validate_type`, take the
document's value, otherwise fall back to the default section's value for
that exact field. (For the field types modelled here `_validate_type` never
raises, so the `except` branch of the source, which also falls back to the
default, is unreachable.) -/
def merge_field (default_section : String → PyValue)
    (raw_section : List (String × PyValue)) (field_name : String)
    (field_type : FieldType) : PyValue :=
  match dict_find raw_section field_name with
  | some value =>
    if validate_type value field_type then value else default_section field_name
  | none => default_section field_name

/-- Embedding of `ConfigLoader._merge_section` (loader.py lines 161-200): the
merged section assigns to every declared field of the section dataclass the
result of `merge_field`. The section dataclass is represented by its list of
`(field name, field type)` pairs, and the default section object by the
function giving each field's default (`getattr(default_section, name)`). -/
def merge_section (default_section : String → PyValue)
    (raw_section : List (String × PyValue))
    (section_fields : List (String × FieldType)) : List (String × PyValue) :=
  section_fields.map
    (fun nt => (nt.1, merge_field default_section raw_section nt.1 nt.2))

/-- A parsed TOML document (respectively a merged configuration), seen the
way `ConfigLoader._merge_config` sees it through dataclass reflection: a
table of sections, each a table of field values. -/
abbrev RawDoc := List (String × List (String × PyValue))

/-- One configuration section dataclass, as reflected by
`dataclasses.fields`: the section name together with each declared field's
name, type annotation and default value (schema.py). -/
structure SectionSchema where
  name : String
  decl : List (String × FieldType × PyValue)

/-- The `(field name, field type)` pairs of a section, mirroring
`section_fields = {f.name: f.type for f in fields(section_type)}`. -/
def SectionSchema.fieldTypes (s : SectionSchema) : List (String × FieldType) :=
  s.decl.map (fun x => (x.1, x.2.1))

/-- The default section object viewed through `getattr`: each declared field
maps to its schema default. -/
def SectionSchema.dflt (s : SectionSchema) : String → PyValue :=
  fun n => (dict_find (s.decl.map (fun x => (x.1, x.2.2))) n).getD .vNone

/-- The default section as a full field assignment (the value
`_merge_config` stores when a section is absent from the document). -/
def SectionSchema.defaults (s : SectionSchema) : List (String × PyValue) :=
  s.decl.map (fun x => (x.1, x.2.2))

/-- Embedding of `ConfigLoader._merge_config` (loader.py lines 127-159): for
each declared top-level section, merge it field-by-field with
`_merge_section` when the document contains it (every section type here is a
dataclass, so the `is_dataclass` guard of the source always holds), and keep
the full default section otherwise. -/
def merge_config (schema : List SectionSchema) (raw : RawDoc) : RawDoc :=
  schema.map (fun s =>
    match dict_find raw s.name with
    | some raw_section => (s.name, merge_section s.dflt raw_section s.fieldTypes)
    | none => (s.name, s.defaults))

/-- The reflection of `DevDashConfig` (schema.py lines 11-151): every
section, every field, its declared type and its default value. -/
def devdash_schema : List SectionSchema :=
  [⟨"general",
    [("theme", .tStr, .vStr "default"),
     ("layout", .tStr, .vStr "default"),
     ("update_header", .tBool, .vBool true)]⟩,
   ⟨"git",
    [("enabled", .tBool, .vBool true),
     ("refresh_interval", .tInt, .vInt 5),
     ("max_commits", .tInt, .vInt 3),
     ("show_staged", .tBool, .vBool true),
     ("show_modified", .tBool, .vBool true),
     ("show_untracked", .tBool, .vBool true),
     ("compact_mode", .tBool, .vBool false),
     ("repository_path", .tOptStr, .vNone)]⟩,
   ⟨"system",
    [("enabled", .tBool, .vBool true),
     ("refresh_interval", .tInt, .vInt 1),
     ("show_cpu", .tBool, .vBool true),
     ("show_ram", .tBool, .vBool true),
     ("show_disk", .tBool, .vBool true),
     ("show_uptime", .tBool, .vBool true),
     ("show_load_avg", .tBool, .vBool true),
     ("cpu_warning_threshold", .tFloat, .vFloat 60),
     ("cpu_critical_threshold", .tFloat, .vFloat 80),
     ("ram_warning_threshold", .tFloat, .vFloat 60),
     ("ram_critical_threshold", .tFloat, .vFloat 80),
     ("disk_warning_threshold", .tFloat, .vFloat 60),
     ("disk_critical_threshold", .tFloat, .vFloat 80),
     ("progress_bar_width", .tInt, .vInt 10),
     ("progress_bar_style", .tStr, .vStr "blocks")]⟩,
   ⟨"tasks",
    [("enabled", .tBool, .vBool true),
     ("file_path", .tStr, .vStr ".devdash_tasks.json"),
     ("default_sort", .tStr, .vStr "created"),
     ("show_completed", .tBool, .vBool true),
     ("default_priority_filter", .tOptStr, .vNone),
     ("default_category_filter", .tOptStr, .vNone),
     ("max_visible_tasks", .tInt, .vInt 20),
     ("truncate_length", .tInt, .vInt 40),
     ("show_categories", .tBool, .vBool true),
     ("show_due_dates", .tBool, .vBool true),
     ("show_priority_emoji", .tBool, .vBool true),
     ("due_soon_days", .tInt, .vInt 3),
     ("export_format", .tStr, .vStr "grouped")]⟩,
   ⟨"timer",
    [("enabled", .tBool, .vBool true),
     ("focus_duration", .tInt, .vInt 25),
     ("break_duration", .tInt, .vInt 5),
     ("long_break_duration", .tInt, .vInt 15),
     ("auto_start_break", .tBool, .vBool false),
     ("notification_enabled", .tBool, .vBool false),
     ("notification_sound", .tStr, .vStr "bell"),
     ("show_progress_bar", .tBool, .vBool true),
     ("progress_bar_width", .tInt, .vInt 20)]⟩,
   ⟨"ui",
    [("border_style", .tStr, .vStr "solid"),
     ("panel_padding", .tInt, .vInt 1),
     ("show_footer", .tBool, .vBool true),
     ("show_header", .tBool, .vBool true),
     ("compact_view", .tBool, .vBool false)]⟩,
   ⟨"keybindings",
    [("quit", .tStr, .vStr "q"),
     ("help", .tStr, .vStr "?"),
     ("config", .tStr, .vStr "c"),
     ("refresh", .tStr, .vStr "r"),
     ("add_task", .tStr, .vStr "a"),
     ("edit_task", .tStr, .vStr "e"),
     ("toggle_task", .tStr, .vStr "space"),
     ("delete_task", .tStr, .vStr "d"),
     ("quick_priority", .tStr, .vStr "p"),
     ("filter_tasks", .tStr, .vStr "f"),
     ("sort_tasks", .tStr, .vStr "s"),
     ("export_tasks", .tStr, .vStr "x"),
     ("filter_high", .tStr, .vStr "1"),
     ("filter_medium", .tStr, .vStr "2"),
     ("filter_low", .tStr, .vStr "3"),
     ("clear_filters", .tStr, .vStr "0"),
     ("timer_focus", .tStr, .vStr "F"),
     ("timer_break", .tStr, .vStr "B"),
     ("timer_stop", .tStr, .vStr "S")]⟩]

/-- The all-defaults configuration (`get_default_config`, defaults.py lines
18-33), in the generic field-assignment view used by the loader. -/
def default_config_generic : RawDoc :=
  devdash_schema.map (fun s => (s.name, s.defaults))

/-- Outcome of opening and parsing one configuration file, abstracting the
operating system: a successfully parsed document, or one of the failure
classes distinguished by `ConfigLoader.load_toml`. -/
inductive ReadResult where
  | ok (doc : RawDoc)
  | fileNotFound
  | permissionDenied
  | tomlSyntaxError (detail : String)
  | otherIOError (detail : String)

/-- The file system as the loader observes it: which paths exist as regular
files (used only by discovery) and what reading and parsing a path yields. -/
structure FileSystem where
  exists_file : String → Bool
  read : String → ReadResult

/-- Raised when configuration loading fails (loader.py lines 36-39). -/
structure ConfigLoadError where
  msg : String
deriving DecidableEq

/-- Embedding of `ConfigLoader.find_config_file` (loader.py lines 45-67):
the first existing candidate among the current working directory's
`.devdash.toml`, the XDG config path, and the home `.devdash.toml`; `none`
when no candidate exists. -/
def find_config_file (fs : FileSystem) (cwd home : String) : Option String :=
  [cwd ++ "/.devdash.toml",
   home ++ "/.config/devdash/config.toml",
   home ++ "/.devdash.toml"].find? fs.exists_file

/-- Embedding of `ConfigLoader.load_toml` (loader.py lines 69-96): a parsed
document on success; `ConfigLoadError` with the corresponding message on
permission denial, TOML syntax error, or any other failure (a non-existent
file raises `FileNotFoundError`, which the final `except Exception` clause
converts to the generic "Failed to load" error). -/
def load_toml (fs : FileSystem) (path : String) :
    Except ConfigLoadError RawDoc :=
  match fs.read path with
  | .ok doc => .ok doc
  | .permissionDenied =>
    .error ⟨"Cannot read config file (permission denied): " ++ path⟩
  | .tomlSyntaxError e =>
    .error ⟨"Invalid TOML syntax in " ++ path ++ ":\n  " ++ e⟩
  | .fileNotFound =>
    .error ⟨"Failed to load config from " ++ path ++ ": file not found"⟩
  | .otherIOError e =>
    .error ⟨"Failed to load config from " ++ path ++ ": " ++ e⟩

/-- The path the loader will actually use:
`custom_path if custom_path else self.find_config_file()`
(loader.py line 111). -/
def config_path (fs : FileSystem) (cwd home : String)
    (custom_path : Option String) : Option String :=
  match custom_path with
  | some p => some p
  | none => find_config_file fs cwd home

/-- Embedding of `ConfigLoader.load_config` (loader.py lines 98-125): start
from the defaults; resolve the path (explicit custom path, else discovery);
with no path, return the defaults; otherwise parse and merge, re-raising any
`ConfigLoadError` unchanged. -/
def load_config (fs : FileSystem) (cwd home : String)
    (custom_path : Option String) : Except ConfigLoadError RawDoc :=
  let config := default_config_generic
  match config_path fs cwd home custom_path with
  | none => .ok config
  | some path =>
    match load_toml fs path with
    | .ok raw => .ok (merge_config devdash_schema raw)
    | .error e => .error e

/-- Typed embedding of `GeneralConfig` (schema.py lines 11-17). -/
structure GeneralConfig where
  theme : String := "default"
  layout : String := "default"
  update_header : Bool := true
deriving DecidableEq

/-- Typed embedding of `GitConfig` (schema.py lines 20-31). -/
structure GitConfig where
  enabled : Bool := true
  refresh_interval : Int := 5
  max_commits : Int := 3
  show_staged : Bool := true
  show_modified : Bool := true
  show_untracked : Bool := true
  compact_mode : Bool := false
  repository_path : Option String := none
deriving DecidableEq

/-- Typed embedding of `SystemConfig` (schema.py lines 34-54); float
thresholds are modelled as rationals (the validator only compares them). -/
structure SystemConfig where
  enabled : Bool := true
  refresh_interval : Int := 1
  show_cpu : Bool := true
  show_ram : Bool := true
  show_disk : Bool := true
  show_uptime : Bool := true
  show_load_avg : Bool := true
  cpu_warning_threshold : Rat := 60
  cpu_critical_threshold : Rat := 80
  ram_warning_threshold : Rat := 60
  ram_critical_threshold : Rat := 80
  disk_warning_threshold : Rat := 60
  disk_critical_threshold : Rat := 80
  progress_bar_width : Int := 10
  progress_bar_style : String := "blocks"
deriving DecidableEq

/-- Typed embedding of `TasksConfig` (schema.py lines 57-73). -/
structure TasksConfig where
  enabled : Bool := true
  file_path : String := ".devdash_tasks.json"
  default_sort : String := "created"
  show_completed : Bool := true
  default_priority_filter : Option String := none
  default_category_filter : Option String := none
  max_visible_tasks : Int := 20
  truncate_length : Int := 40
  show_categories : Bool := true
  show_due_dates : Bool := true
  show_priority_emoji : Bool := true
  due_soon_days : Int := 3
  export_format : String := "grouped"
deriving DecidableEq

/-- Typed embedding of `TimerConfig` (schema.py lines 76-88). -/
structure TimerConfig where
  enabled : Bool := true
  focus_duration : Int := 25
  break_duration : Int := 5
  long_break_duration : Int := 15
  auto_start_break : Bool := false
  notification_enabled : Bool := false
  notification_sound : String := "bell"
  show_progress_bar : Bool := true
  progress_bar_width : Int := 20
deriving DecidableEq

/-- Typed embedding of `UIConfig` (schema.py lines 91-99). -/
structure UIConfig where
  border_style : String := "solid"
  panel_padding : Int := 1
  show_footer : Bool := true
  show_header : Bool := true
  compact_view : Bool := false
deriving DecidableEq

/-- Typed embedding of `KeybindingsConfig` (schema.py lines 102-136). -/
structure KeybindingsConfig where
  quit : String := "q"
  help : String := "?"
  config : String := "c"
  refresh : String := "r"
  add_task : String := "a"
  edit_task : String := "e"
  toggle_task : String := "space"
  delete_task : String := "d"
  quick_priority : String := "p"
  filter_tasks : String := "f"
  sort_tasks : String := "s"
  export_tasks : String := "x"
  filter_high : String := "1"
  filter_medium : String := "2"
  filter_low : String := "3"
  clear_filters : String := "0"
  timer_focus : String := "F"
  timer_break : String := "B"
  timer_stop : String := "S"
deriving DecidableEq

/-- Typed embedding of the root `DevDashConfig` (schema.py lines 140-151). -/
structure DevDashConfig where
  general : GeneralConfig := {}
  git : GitConfig := {}
  system : SystemConfig := {}
  tasks : TasksConfig := {}
  timer : TimerConfig := {}
  ui : UIConfig := {}
  keybindings : KeybindingsConfig := {}
deriving DecidableEq

/-- Embedding of `get_default_config` (defaults.py lines 18-33): every
section built from its schema defaults. -/
def get_default_config : DevDashConfig := {}

/-- Embedding of `ConfigValidator.validate_git` (validator.py lines 32-62). -/
def validate_git (config : GitConfig) : List String :=
  (if config.refresh_interval < 1 then
    ["git.refresh_interval must be >= 1 (got " ++ toString config.refresh_interval
      ++ "), using default: 5"]
   else [])
  ++ (if config.refresh_interval > 3600 then
    ["git.refresh_interval is very large (" ++ toString config.refresh_interval
      ++ "s = " ++ toString (config.refresh_interval / 60) ++ " minutes)"]
   else [])
  ++ (if config.max_commits < 0 ∨ config.max_commits > 20 then
    ["git.max_commits should be 0-20 (got " ++ toString config.max_commits
      ++ "), using default: 3"]
   else [])

/-- The range message of `validate_system`'s threshold loop (validator.py
lines 100-110): `dflt` is `"60"` for a warning threshold and `"80"` for a
critical one. -/
def threshold_range_msg (fname : String) (v : Rat) (dflt : String) : String :=
  "system." ++ fname ++ " must be 0-100 (got " ++ toString v
    ++ "), using default: " ++ dflt

/-- The cross-field message of `validate_system`'s threshold loop
(validator.py lines 113-117). -/
def threshold_order_msg (wname : String) (wval : Rat) (cname : String)
    (cval : Rat) : String :=
  "system." ++ wname ++ " (" ++ toString wval ++ ") should be less than system."
    ++ cname ++ " (" ++ toString cval ++ ")"

/-- One iteration of `validate_system`'s loop over the three
`(warning, critical)` threshold pairs (validator.py lines 95-117): flag each
value outside `[0, 100]` individually, and flag `warning >= critical` as its
own message. -/
def threshold_pair_warnings (wname : String) (wval : Rat) (cname : String)
    (cval : Rat) : List String :=
  (if ¬(0 ≤ wval ∧ wval ≤ 100) then [threshold_range_msg wname wval "60"] else [])
  ++ (if ¬(0 ≤ cval ∧ cval ≤ 100) then [threshold_range_msg cname cval "80"] else [])
  ++ (if wval ≥ cval then [threshold_order_msg wname wval cname cval] else [])

/-- Embedding of `ConfigValidator.validate_system` (validator.py lines
64-134). -/
def validate_system (config : SystemConfig) : List String :=
  (if (config.refresh_interval : Rat) < 0.5 then
    ["system.refresh_interval must be >= 0.5 (got " ++ toString config.refresh_interval
      ++ "), using default: 1"]
   else [])
  ++ (if config.refresh_interval > 60 then
    ["system.refresh_interval is very large (" ++ toString config.refresh_interval ++ "s)"]
   else [])
  ++ threshold_pair_warnings "cpu_warning_threshold" config.cpu_warning_threshold
      "cpu_critical_threshold" config.cpu_critical_threshold
  ++ threshold_pair_warnings "ram_warning_threshold" config.ram_warning_threshold
      "ram_critical_threshold" config.ram_critical_threshold
  ++ threshold_pair_warnings "disk_warning_threshold" config.disk_warning_threshold
      "disk_critical_threshold" config.disk_critical_threshold
  ++ (if config.progress_bar_width < 5 ∨ config.progress_bar_width > 50 then
    ["system.progress_bar_width should be 5-50 (got " ++ toString config.progress_bar_width
      ++ "), using default: 10"]
   else [])
  ++ (if ¬(["blocks", "bars", "dots"].contains config.progress_bar_style) then
    ["system.progress_bar_style must be one of ['blocks', 'bars', 'dots'] (got '"
      ++ config.progress_bar_style ++ "'), using default: 'blocks'"]
   else [])

/-- Embedding of `ConfigValidator.validate_tasks` (validator.py lines
136-194). -/
def validate_tasks (config : TasksConfig) : List String :=
  (if ¬(["created", "priority", "due_date", "text"].contains config.default_sort) then
    ["tasks.default_sort must be one of ['created', 'priority', 'due_date', 'text'] (got '"
      ++ config.default_sort ++ "'), using default: 'created'"]
   else [])
  ++ (match config.default_priority_filter with
    | none => []
    | some p =>
      if ¬(["high", "medium", "low"].contains p) then
        ["tasks.default_priority_filter must be one of ['high', 'medium', 'low'] or null (got '"
          ++ p ++ "'), using default: null"]
      else [])
  ++ (if config.max_visible_tasks < 1 ∨ config.max_visible_tasks > 100 then
    ["tasks.max_visible_tasks should be 1-100 (got " ++ toString config.max_visible_tasks
      ++ "), using default: 20"]
   else [])
  ++ (if config.truncate_length < 20 ∨ config.truncate_length > 200 then
    ["tasks.truncate_length should be 20-200 (got " ++ toString config.truncate_length
      ++ "), using default: 40"]
   else [])
  ++ (if config.due_soon_days < 1 ∨ config.due_soon_days > 30 then
    ["tasks.due_soon_days should be 1-30 (got " ++ toString config.due_soon_days
      ++ "), using default: 3"]
   else [])
  ++ (if ¬(["grouped", "simple", "detailed"].contains config.export_format) then
    ["tasks.export_format must be one of ['grouped', 'simple', 'detailed'] (got '"
      ++ config.export_format ++ "'), using default: 'grouped'"]
   else [])

/-- Embedding of `ConfigValidator.validate_timer` (validator.py lines
196-244). -/
def validate_timer (config : TimerConfig) : List String :=
  (if config.focus_duration < 1 ∨ config.focus_duration > 240 then
    ["timer.focus_duration should be 1-240 minutes (got " ++ toString config.focus_duration
      ++ "), using default: 25"]
   else [])
  ++ (if config.break_duration < 1 ∨ config.break_duration > 60 then
    ["timer.break_duration should be 1-60 minutes (got " ++ toString config.break_duration
      ++ "), using default: 5"]
   else [])
  ++ (if config.long_break_duration < 1 ∨ config.long_break_duration > 120 then
    ["timer.long_break_duration should be 1-120 minutes (got "
      ++ toString config.long_break_duration ++ "), using default: 15"]
   else [])
  ++ (if config.progress_bar_width < 10 ∨ config.progress_bar_width > 60 then
    ["timer.progress_bar_width should be 10-60 (got " ++ toString config.progress_bar_width
      ++ "), using default: 20"]
   else [])
  ++ (if ¬(["bell", "chime", "silent"].contains config.notification_sound) then
    ["timer.notification_sound must be one of ['bell', 'chime', 'silent'] (got '"
      ++ config.notification_sound ++ "'), using default: 'bell'"]
   else [])

/-- Embedding of `ConfigValidator.validate_ui` (validator.py lines
246-273). -/
def validate_ui (config : UIConfig) : List String :=
  (if ¬(["solid", "double", "rounded", "heavy", "none"].contains config.border_style) then
    ["ui.border_style must be one of ['solid', 'double', 'rounded', 'heavy', 'none'] (got '"
      ++ config.border_style ++ "'), using default: 'solid'"]
   else [])
  ++ (if config.panel_padding < 0 ∨ config.panel_padding > 5 then
    ["ui.panel_padding should be 0-5 (got " ++ toString config.panel_padding
      ++ "), using default: 1"]
   else [])

/-- Embedding of `ConfigValidator.validate_config` (validator.py lines
14-30): concatenate the per-section warnings in the fixed order Git, System,
Tasks, Timer, UI. -/
def validate_config (config : DevDashConfig) : List String :=
  validate_git config.git ++ validate_system config.system
    ++ validate_tasks config.tasks ++ validate_timer config.timer
    ++ validate_ui config.ui

/-- Gregorian leap year rule. -/
def isLeapYear (y : Int) : Bool :=
  (y % 4 == 0 && y % 100 != 0) || y % 400 == 0

/-- Number of days of month `m` of year `y`. -/
def daysInMonth (y m : Int) : Int :=
  if m = 2 then (if isLeapYear y then 29 else 28)
  else if m = 4 ∨ m = 6 ∨ m = 9 ∨ m = 11 then 30
  else 31

/-- The Julian day number of the Gregorian date `y-m-d`: a linear day count,
standing in for Python's `datetime.date` ordinal so that date comparison and
`(due - today).days` become integer comparison and subtraction. -/
def daysFromCivil (y m d : Int) : Int :=
  let a := Int.fdiv (14 - m) 12
  let y' := y + 4800 - a
  let m' := m + 12 * a - 3
  d + Int.fdiv (153 * m' + 2) 5 + 365 * y' + Int.fdiv y' 4 - Int.fdiv y' 100
    + Int.fdiv y' 400 - 32045

/-- Value of a decimal digit character. -/
def digitVal (c : Char) : Nat := c.toNat - '0'.toNat

/-- Parsing of an ISO `YYYY-MM-DD` due-date string to its day number,
modelling `datetime.fromisoformat(s).date()` on the date-only strings the
task model stores (`none` models the `ValueError` the source catches): a
four-digit year in `datetime`'s range starting at 1, a dash, a two-digit
month, a dash, and a two-digit day, the month and day valid for the
Gregorian calendar. -/
def parseISODate (s : String) : Option Int :=
  match s.toList with
  | [y1, y2, y3, y4, '-', m1, m2, '-', d1, d2] =>
    if y1.isDigit ∧ y2.isDigit ∧ y3.isDigit ∧ y4.isDigit ∧ m1.isDigit
        ∧ m2.isDigit ∧ d1.isDigit ∧ d2.isDigit then
      let y : Int := (1000 * digitVal y1 + 100 * digitVal y2 + 10 * digitVal y3
        + digitVal y4 : Nat)
      let m : Int := (10 * digitVal m1 + digitVal m2 : Nat)
      let d : Int := (10 * digitVal d1 + digitVal d2 : Nat)
      if 1 ≤ y ∧ 1 ≤ m ∧ m ≤ 12 ∧ 1 ≤ d ∧ d ≤ daysInMonth y m then
        some (daysFromCivil y m d)
      else none
    else none
  | _ => none

/-- Embedding of the `Task` dataclass (task_model.py lines 21-31). The
constructor-time validation of `__post_init__` is not re-modelled: the
claims below quantify over already-constructed records, or state their
well-formedness hypotheses explicitly. -/
structure Task where
  id : Int
  text : String
  done : Bool := false
  priority : Option String := none
  due_date : Option String := none
  categories : List String := []
  created_at : Option String := none
deriving DecidableEq

/-- Lowercasing of an ASCII character, the computable core of Python's
`str.lower` on the ASCII tags the task model uses. -/
def lowerChar (c : Char) : Char :=
  if 'A' ≤ c ∧ c ≤ 'Z' then Char.ofNat (c.toNat + 32) else c

/-- Embedding of `str.lower` (restricted to ASCII case mapping). -/
def lowerString (s : String) : String :=
  ⟨s.data.map lowerChar⟩

/-- Structural lexicographic (code point) comparison of character lists. -/
def charListLt : List Char → List Char → Bool
  | [], [] => false
  | [], _ :: _ => true
  | _ :: _, [] => false
  | a :: as, b :: bs =>
    if a < b then true else if b < a then false else charListLt as bs

/-- Python's `<` on strings: lexicographic by code point. -/
def strLt (a b : String) : Bool := charListLt a.data b.data

/-- Python's `<=` on strings. -/
def strLe (a b : String) : Bool := !(strLt b a)

/-- Python truthiness of an optional string (`if task.priority:`): `None`
and the empty string are falsy. -/
def strOptTruthy : Option String → Bool
  | none => false
  | some s => !s.isEmpty

/-- Embedding of `Task.is_overdue` (task_model.py lines 72-80): has a due
date, is not done, and the due date parses and is strictly before today
(an unparsable date yields `False` through the `except` clause). -/
def Task.is_overdue (t : Task) (today : Int) : Bool :=
  match t.due_date with
  | none => false
  | some s =>
    if t.done then false
    else
      match parseISODate s with
      | some due => decide (due < today)
      | none => false

/-- Embedding of `Task.is_due_soon` (task_model.py lines 82-94): has a due
date, is not done, the due date parses, is not before today, and lies within
`days` days of today. -/
def Task.is_due_soon (t : Task) (today : Int) (days : Int := 3) : Bool :=
  match t.due_date with
  | none => false
  | some s =>
    if t.done then false
    else
      match parseISODate s with
      | some due =>
        if due < today then false else decide (due - today ≤ days)
      | none => false

/-- Embedding of `Task.has_category` (task_model.py lines 96-98):
case-insensitive membership of the tag in the task's category list. -/
def Task.has_category (t : Task) (category : String) : Bool :=
  (t.categories.map lowerString).contains (lowerString category)

/-- Embedding of `Task.matches_priority` (task_model.py lines 100-102):
plain equality with the given priority; the `None` argument matches exactly
the tasks with no priority. -/
def Task.matches_priority (t : Task) (priority : Option String) : Bool :=
  t.priority == priority

/-- Embedding of `Task.get_priority_emoji` (task_model.py lines 104-112). -/
def Task.get_priority_emoji (t : Task) : String :=
  if t.priority == some "high" then "🔴"
  else if t.priority == some "medium" then "🟡"
  else if t.priority == some "low" then "🟢"
  else ""

/-- Embedding of `Task.get_due_date_indicator` (task_model.py lines
114-122). -/
def Task.get_due_date_indicator (t : Task) (today : Int) : String :=
  match t.due_date with
  | none => ""
  | some _ =>
    if t.is_overdue today then "⚠️"
    else if t.is_due_soon today then "📅"
    else "📆"

/-- Embedding of `migrate_legacy_task` (task_model.py lines 125-144): build
the normalized record field by field with `dict.get`, backfilling
`created_at` with the current timestamp `now` when absent. -/
def migrate_legacy_task (now : String) (old_task : List (String × PyValue)) :
    List (String × PyValue) :=
  [("id", dict_get old_task "id" (.vInt 0)),
   ("text", dict_get old_task "text" (.vStr "")),
   ("done", dict_get old_task "done" (.vBool false)),
   ("priority", dict_get old_task "priority" .vNone),
   ("due_date", dict_get old_task "due_date" .vNone),
   ("categories", dict_get old_task "categories" (.vList [])),
   ("created_at", dict_get old_task "created_at" (.vStr now))]

/-- Embedding of `filter_tasks` (task_model.py lines 185-214): drop done
tasks when `show_done` is false, then — only when a priority argument is
given (`if priority is not None`) — keep the tasks matching it, then — only
when a category argument is given — keep the tasks having it. -/
def filter_tasks (tasks : List Task) (priority : Option String := none)
    (category : Option String := none) (show_done : Bool := true) : List Task :=
  let filtered := tasks
  let filtered := if show_done then filtered else filtered.filter (fun t => !t.done)
  let filtered :=
    match priority with
    | none => filtered
    | some p => filtered.filter (fun t => t.matches_priority (some p))
  match category with
  | none => filtered
  | some c => filtered.filter (fun t => t.has_category c)

/-- The priority rank used by the export sort keys:
`{"high": 0, "medium": 1, "low": 2, None: 3}.get(p, 3)`. -/
def priority_rank : Option String → Nat
  | some "high" => 0
  | some "medium" => 1
  | some "low" => 2
  | none => 3
  | some _ => 3

/-- The priority emoji lookup of the export module:
`{"high": "🔴", "medium": "🟡", "low": "🟢"}.get(p, "")`. -/
def priority_emoji_of (p : String) : String :=
  if p = "high" then "🔴"
  else if p = "medium" then "🟡"
  else if p = "low" then "🟢"
  else ""

/-- Structural stable insertion of `a` into a sorted list: `a` is placed
before the first element `b` with `le a b`, so equal-key elements keep their
original relative order. -/
def insertSorted {α : Type} (le : α → α → Bool) (a : α) : List α → List α
  | [] => [a]
  | b :: bs => if le a b then a :: b :: bs else b :: insertSorted le a bs

/-- Stable sort standing in for Python's stable `sorted(xs, key=...)`: the
comparison `le` is the key comparison `key x <= key y`; stability plus
sortedness under a total preorder determine the output uniquely, so this
structural insertion sort computes exactly what `sorted` returns. -/
def py_sorted {α : Type} (le : α → α → Bool) : List α → List α
  | [] => []
  | a :: as => insertSorted le a (py_sorted le as)

/-- `sum(1 for t in tasks if t.done)`. -/
def done_count (tasks : List Task) : Nat :=
  tasks.countP (fun t => t.done)

/-- The header block shared verbatim by the three export layouts
(task_export.py lines 47-56, 89-98 and 158-167); `now` stands for the
formatted `datetime.now()` timestamp. -/
def export_header (now : String) (tasks : List Task) (title : String) :
    List String :=
  ["# " ++ title,
   "",
   "*Exported: " ++ now ++ "*",
   "",
   "Total tasks: " ++ toString tasks.length ++ " | Completed: "
     ++ toString (done_count tasks),
   "",
   "---",
   ""]

/-- `task.due_date or "9999-12-31"`: the date string when truthy, the
sentinel for `None` (or an empty string). -/
def due_or_sentinel (t : Task) : String :=
  match t.due_date with
  | some d => if d.isEmpty then "9999-12-31" else d
  | none => "9999-12-31"

/-- The flat layout's sort order, `key=lambda t: (t.done, priority_rank)`
compared lexicographically with `False < True`. -/
def flat_le (t u : Task) : Bool :=
  t.done.toNat < u.done.toNat
    || (t.done == u.done && priority_rank t.priority ≤ priority_rank u.priority)

/-- The grouped layout's per-section sort order,
`key=lambda t: (t.done, t.due_date or "9999-12-31")`. -/
def done_due_le (t u : Task) : Bool :=
  t.done.toNat < u.done.toNat
    || (t.done == u.done && strLe (due_or_sentinel t) (due_or_sentinel u))

/-- The category layout's per-section sort order,
`key=lambda t: (priority_rank, t.done)`. -/
def rank_done_le (t u : Task) : Bool :=
  priority_rank t.priority < priority_rank u.priority
    || (priority_rank t.priority == priority_rank u.priority
        && t.done.toNat ≤ u.done.toNat)

/-- One task line of the flat layout (task_export.py lines 64-82): checkbox,
text, priority badge when the priority is truthy, due-date glyph and date
when the due date is truthy, and the category tags. -/
def flat_task_line (today : Int) (t : Task) : String :=
  let checkbox := if t.done then "[x]" else "[ ]"
  let priority_badge :=
    match t.priority with
    | some p =>
      if p.isEmpty then ""
      else " **" ++ priority_emoji_of p ++ " " ++ p.toUpper ++ "**"
    | none => ""
  let due_text :=
    match t.due_date with
    | some d =>
      if d.isEmpty then ""
      else " " ++ t.get_due_date_indicator today ++ " *Due: " ++ d ++ "*"
    | none => ""
  let categories_text :=
    if t.categories.isEmpty then ""
    else " " ++ String.intercalate " " (t.categories.map (fun c => "`#" ++ c ++ "`"))
  "- " ++ checkbox ++ " " ++ t.text ++ priority_badge ++ due_text ++ categories_text

/-- The line list of the flat layout (task_export.py lines 45-84). -/
def flat_lines (today : Int) (now : String) (tasks : List Task)
    (title : String) : List String :=
  export_header now tasks title
    ++ (py_sorted flat_le tasks).map (flat_task_line today)

/-- Embedding of `_export_flat` (task_export.py lines 45-84). -/
def export_flat (today : Int) (now : String) (tasks : List Task)
    (title : String) : String :=
  String.intercalate "\n" (flat_lines today now tasks title)

/-- The tasks landing in one priority group of the grouped layout
(`priority_groups[task.priority].append(task)`, order preserved; every task
of a well-formed list has one of the four dictionary keys). -/
def priority_group (tasks : List Task) (p : Option String) : List Task :=
  tasks.filter (fun t => t.priority == p)

/-- One task line of the grouped layout (task_export.py lines 135-149): like
the flat line but with no priority badge. -/
def grouped_task_line (today : Int) (t : Task) : String :=
  let checkbox := if t.done then "[x]" else "[ ]"
  let due_text :=
    match t.due_date with
    | some d =>
      if d.isEmpty then ""
      else " " ++ t.get_due_date_indicator today ++ " *Due: " ++ d ++ "*"
    | none => ""
  let categories_text :=
    if t.categories.isEmpty then ""
    else " " ++ String.intercalate " " (t.categories.map (fun c => "`#" ++ c ++ "`"))
  "- " ++ checkbox ++ " " ++ t.text ++ due_text ++ categories_text

/-- One priority section of the grouped layout (task_export.py lines
119-151): skipped entirely when the group is empty, otherwise a header with
the counts, the group sorted by `(done, due date or sentinel)`, and a blank
trailing line. -/
def grouped_section (today : Int) (section_title : String)
    (group_tasks : List Task) : List String :=
  if group_tasks.isEmpty then []
  else
    ["## " ++ section_title,
     "",
     "*" ++ toString group_tasks.length ++ " tasks ("
       ++ toString (done_count group_tasks) ++ " completed)*",
     ""]
    ++ (py_sorted done_due_le group_tasks).map (grouped_task_line today)
    ++ [""]

/-- The line list of the grouped-by-priority layout (task_export.py lines
87-153): the header block, then the four fixed sections High, Medium, Low,
No Priority. -/
def grouped_by_priority_lines (today : Int) (now : String)
    (tasks : List Task) (title : String) : List String :=
  export_header now tasks title
    ++ grouped_section today "🔴 High Priority" (priority_group tasks (some "high"))
    ++ grouped_section today "🟡 Medium Priority" (priority_group tasks (some "medium"))
    ++ grouped_section today "🟢 Low Priority" (priority_group tasks (some "low"))
    ++ grouped_section today "⚪ No Priority" (priority_group tasks none)

/-- Embedding of `_export_grouped_by_priority` (task_export.py lines
87-153). -/
def export_grouped_by_priority (today : Int) (now : String)
    (tasks : List Task) (title : String) : String :=
  String.intercalate "\n" (grouped_by_priority_lines today now tasks title)

/-- The keys of the `defaultdict` built by the category layout, in first
occurrence order: every category tag of every task with categories. -/
def category_keys (tasks : List Task) : List String :=
  tasks.foldl
    (fun ks t =>
      t.categories.foldl (fun ks c => if ks.contains c then ks else ks ++ [c]) ks)
    []

/-- The tasks appended to one category's list: every task, once per
occurrence of exactly (case-sensitively) this tag in its category list. -/
def category_group (tasks : List Task) (c : String) : List Task :=
  tasks.flatMap
    (fun t => t.categories.filterMap (fun cat => if cat = c then some t else none))

/-- One task line of the category layout (task_export.py lines 202-217 and
236-251): checkbox, text, bare emoji priority badge, due-date glyph and bare
date. -/
def category_task_line (today : Int) (t : Task) : String :=
  let checkbox := if t.done then "[x]" else "[ ]"
  let priority_badge :=
    match t.priority with
    | some p => if p.isEmpty then "" else " **" ++ priority_emoji_of p ++ "**"
    | none => ""
  let due_text :=
    match t.due_date with
    | some d =>
      if d.isEmpty then ""
      else " " ++ t.get_due_date_indicator today ++ " *" ++ d ++ "*"
    | none => ""
  "- " ++ checkbox ++ " " ++ t.text ++ priority_badge ++ due_text

/-- One category section of the category layout (task_export.py lines
184-219). -/
def category_section (today : Int) (c : String) (group_tasks : List Task) :
    List String :=
  ["## 📁 " ++ c,
   "",
   "*" ++ toString group_tasks.length ++ " tasks ("
     ++ toString (done_count group_tasks) ++ " completed)*",
   ""]
  ++ (py_sorted rank_done_le group_tasks).map (category_task_line today)
  ++ [""]

/-- The line list of the grouped-by-category layout (task_export.py lines
156-255): the header block, one section per distinct category in
alphabetical order, and a final Uncategorized section when some task has no
categories. -/
def grouped_by_category_lines (today : Int) (now : String)
    (tasks : List Task) (title : String) : List String :=
  export_header now tasks title
    ++ (py_sorted strLe (category_keys tasks)).flatMap
        (fun c => category_section today c (category_group tasks c))
    ++ (let uncategorized := tasks.filter (fun t => t.categories.isEmpty)
        if uncategorized.isEmpty then []
        else
          ["## 📋 Uncategorized",
           "",
           "*" ++ toString uncategorized.length ++ " tasks*",
           ""]
          ++ (py_sorted rank_done_le uncategorized).map (category_task_line today)
          ++ [""])

/-- Embedding of `_export_grouped_by_category` (task_export.py lines
156-255). -/
def export_grouped_by_category (today : Int) (now : String)
    (tasks : List Task) (title : String) : String :=
  String.intercalate "\n" (grouped_by_category_lines today now tasks title)

/-- Embedding of `export_to_markdown` (task_export.py lines 13-42), the
returned Markdown content (the optional file write is an I/O side effect
outside this model): the `grouped` layout, the `category` layout, and the
flat layout for every other `format_type` value. -/
def export_to_markdown (today : Int) (now : String) (tasks : List Task)
    (format_type : String := "grouped") (title : String := "DevDash Tasks") :
    String :=
  if format_type = "grouped" then export_grouped_by_priority today now tasks title
  else if format_type = "category" then export_grouped_by_category today now tasks title
  else export_flat today now tasks title

/-- Substring containment: `pat` occurs contiguously inside `s`. -/
def StrContains (s pat : String) : Prop :=
  ∃ l r, s = l ++ (pat ++ r)

theorem dict_find_merge_section (dflt : String → PyValue)
    (raw : List (String × PyValue)) (fs : List (String × FieldType))
    (name : String) (ftype : FieldType) (hmem : (name, ftype) ∈ fs)
    (hnodup : (fs.map Prod.fst).Nodup) :
    dict_find (merge_section dflt raw fs) name =
      some (merge_field dflt raw name ftype) := by
  induction fs with
  | nil => cases hmem
  | cons hd tl ih =>
    obtain ⟨k, ft⟩ := hd
    simp only [List.map_cons, List.nodup_cons] at hnodup
    rcases List.mem_cons.mp hmem with heq | htl
    · obtain ⟨hk, hf⟩ := Prod.mk.injEq .. ▸ heq
      simp [merge_section, dict_find, ← hk, ← hf]
    · have hne : k ≠ name := by
        intro h
        exact hnodup.1 (h ▸ List.mem_map.mpr ⟨(name, ftype), htl, rfl⟩)
      simpa [merge_section, dict_find, hne] using ih htl hnodup.2

/-- C1: for every parsed document section and every declared field, the
merged section takes the document's value exactly when the document contains
the field name and the value passes the declared-type check (a boolean is
rejected where an integer is declared, an integer is rejected where a
boolean is declared, and an integer is accepted where a float is declared);
on absence or type mismatch the merged value is the default for that exact
field. Since the merged value at `name` is determined by the document's
entry at `name` alone, every sibling field independently obeys the same
rule. -/
theorem C1_merge_field_taken_iff_present_and_typed
    (dflt : String → PyValue) (raw : List (String × PyValue))
    (fs : List (String × FieldType)) (name : String) (ftype : FieldType)
    (hmem : (name, ftype) ∈ fs) (hnodup : (fs.map Prod.fst).Nodup) :
    (∀ v, dict_find raw name = some v → validate_type v ftype = true →
      dict_find (merge_section dflt raw fs) name = some v)
    ∧ (∀ v, dict_find raw name = some v → validate_type v ftype = false →
      dict_find (merge_section dflt raw fs) name = some (dflt name))
    ∧ (dict_find raw name = none →
      dict_find (merge_section dflt raw fs) name = some (dflt name))
    ∧ (∀ b, validate_type (.vBool b) .tInt = false)
    ∧ (∀ n, validate_type (.vInt n) .tBool = false)
    ∧ (∀ n, validate_type (.vInt n) .tFloat = true) := by
  have key := dict_find_merge_section dflt raw fs name ftype hmem hnodup
  refine ⟨?_, ?_, ?_, ?_, ?_, ?_⟩
  · intro v hv hty
    rw [key]
    simp [merge_field, hv, hty]
  · intro v hv hty
    rw [key]
    simp [merge_field, hv, hty]
  · intro hv
    rw [key]
    simp [merge_field, hv]
  · intro b; rfl
  · intro n; rfl
  · intro n; rfl

/-- Witness for C1: in the section `[("refresh_interval", int),
("max_commits", int)]` with defaults all `99`, a document supplying a
boolean for `refresh_interval` and `7` for `max_commits` merges to the
default `99` for the first field and to `7` for its sibling. -/
theorem C1_witness :
    dict_find
        (merge_section (fun _ => .vInt 99)
          [("refresh_interval", .vBool true), ("max_commits", .vInt 7)]
          [("refresh_interval", .tInt), ("max_commits", .tInt)])
        "max_commits" = some (.vInt 7)
    ∧ dict_find
        (merge_section (fun _ => .vInt 99)
          [("refresh_interval", .vBool true), ("max_commits", .vInt 7)]
          [("refresh_interval", .tInt), ("max_commits", .tInt)])
        "refresh_interval" = some (.vInt 99) := by
  constructor
  · exact (C1_merge_field_taken_iff_present_and_typed (fun _ => .vInt 99)
      [("refresh_interval", .vBool true), ("max_commits", .vInt 7)]
      [("refresh_interval", .tInt), ("max_commits", .tInt)]
      "max_commits" .tInt (by simp) (by simp)).1 (.vInt 7) rfl rfl
  · exact ((C1_merge_field_taken_iff_present_and_typed (fun _ => .vInt 99)
      [("refresh_interval", .vBool true), ("max_commits", .vInt 7)]
      [("refresh_interval", .tInt), ("max_commits", .tInt)]
      "refresh_interval" .tInt (by simp) (by simp)).2.1) (.vBool true) rfl rfl

/-- C2 counterexample: passing the null value as the priority filter does
not restrict to the tasks whose priority is null — `filter_tasks` with
`priority=None` returns both the high-priority task and the no-priority
task, not just the no-priority one, so at the `filter_tasks` level null IS
the wildcard meaning "no priority filter". -/
theorem C2_counterexample :
    filter_tasks
        [{ id := 1, text := "a", priority := some "high" },
         { id := 2, text := "b" }] none none true
      = [{ id := 1, text := "a", priority := some "high" },
         { id := 2, text := "b" }]
    ∧ filter_tasks
        [{ id := 1, text := "a", priority := some "high" },
         { id := 2, text := "b" }] none none true
      ≠ [({ id := 2, text := "b" } : Task)] := by
  exact ⟨rfl, by decide⟩

/-- C2 amended: `filter_tasks` is the conjunctive pipeline — done-exclusion
first when `show_done` is false, then priority equality, then
case-insensitive category membership — except that a null priority argument
(like a null category argument) applies no filter at all: it is the
wildcard, and `Task.matches_priority` with null (which matches exactly the
no-priority tasks) is never consulted by `filter_tasks`. The result is an
order-preserving subsequence of the input, and the input list itself is not
mutated (the embedding is a pure function returning a new list). -/
theorem C2_filter_conjunctive_with_null_wildcard (tasks : List Task)
    (p c : Option String) (sd : Bool) :
    filter_tasks tasks p c sd =
      tasks.filter (fun t =>
        (sd || !t.done)
          && (p.elim true (fun q => t.matches_priority (some q)))
          && (c.elim true (fun cat => t.has_category cat)))
    ∧ (filter_tasks tasks p c sd).Sublist tasks := by
  have h : filter_tasks tasks p c sd =
      tasks.filter (fun t =>
        (sd || !t.done)
          && (p.elim true (fun q => t.matches_priority (some q)))
          && (c.elim true (fun cat => t.has_category cat))) := by
    rcases p with _ | q <;> rcases c with _ | cat <;> cases sd <;>
      simp [filter_tasks, List.filter_filter, Bool.and_comm, Bool.and_left_comm,
        Bool.and_assoc]
  exact ⟨h, h ▸ List.filter_sublist _⟩

/-- C3: with an explicit custom path, `load_config` uses that path verbatim
and its result depends only on reading it — discovery (the working
directory, the home directory, and which files exist) is never consulted —
and a non-existent explicit path yields a `ConfigLoadError`; without a
custom path, when discovery finds no candidate, the all-defaults
configuration is returned without error; and on the path actually used,
permission denial, malformed TOML and any other read failure are raised as
`ConfigLoadError` with the corresponding message, never downgraded to
defaults. -/
theorem C3_load_config_error_contract :
    (∀ (fs₁ fs₂ : FileSystem) (cwd₁ home₁ cwd₂ home₂ p : String),
      fs₁.read = fs₂.read →
      load_config fs₁ cwd₁ home₁ (some p) = load_config fs₂ cwd₂ home₂ (some p))
    ∧ (∀ (fs : FileSystem) (cwd home p : String),
      fs.read p = .fileNotFound →
      load_config fs cwd home (some p) =
        .error ⟨"Failed to load config from " ++ p ++ ": file not found"⟩)
    ∧ (∀ (fs : FileSystem) (cwd home : String),
      find_config_file fs cwd home = none →
      load_config fs cwd home none = .ok default_config_generic)
    ∧ (∀ (fs : FileSystem) (cwd home : String) (custom : Option String)
        (path : String),
      config_path fs cwd home custom = some path →
        (fs.read path = .permissionDenied →
          load_config fs cwd home custom =
            .error ⟨"Cannot read config file (permission denied): " ++ path⟩)
        ∧ (∀ d, fs.read path = .tomlSyntaxError d →
          load_config fs cwd home custom =
            .error ⟨"Invalid TOML syntax in " ++ path ++ ":\n  " ++ d⟩)
        ∧ (∀ d, fs.read path = .otherIOError d →
          load_config fs cwd home custom =
            .error ⟨"Failed to load config from " ++ path ++ ": " ++ d⟩)) := by
  refine ⟨?_, ?_, ?_, ?_⟩
  · intro fs₁ fs₂ cwd₁ home₁ cwd₂ home₂ p hread
    simp [load_config, config_path, load_toml, hread]
  · intro fs cwd home p hread
    simp [load_config, config_path, load_toml, hread]
  · intro fs cwd home hfind
    simp [load_config, config_path, hfind]
  · intro fs cwd home custom path hpath
    refine ⟨?_, ?_, ?_⟩
    · intro hread
      simp [load_config, hpath, load_toml, hread]
    · intro d hread
      simp [load_config, hpath, load_toml, hread]
    · intro d hread
      simp [load_config, hpath, load_toml, hread]

/-- Witness for C3: on a file system with no files, an explicit custom path
is a load error while discovery-mode loading returns the defaults; on a file
system where every read is a TOML syntax error, discovery finds the
project-level candidate and the syntax error is raised. -/
theorem C3_witness :
    load_config ⟨fun _ => false, fun _ => .fileNotFound⟩ "/cwd" "/home"
        (some "/tmp/custom.toml")
      = .error ⟨"Failed to load config from /tmp/custom.toml: file not found"⟩
    ∧ load_config ⟨fun _ => false, fun _ => .fileNotFound⟩ "/cwd" "/home" none
      = .ok default_config_generic
    ∧ load_config ⟨fun _ => true, fun _ => .tomlSyntaxError "boom"⟩ "/cwd"
        "/home" none
      = .error ⟨"Invalid TOML syntax in /cwd/.devdash.toml:\n  boom"⟩ := by
  refine ⟨?_, ?_, ?_⟩
  · exact C3_load_config_error_contract.2.1
      ⟨fun _ => false, fun _ => .fileNotFound⟩ "/cwd" "/home"
      "/tmp/custom.toml" rfl
  · exact C3_load_config_error_contract.2.2.1
      ⟨fun _ => false, fun _ => .fileNotFound⟩ "/cwd" "/home" rfl
  · exact ((C3_load_config_error_contract.2.2.2
      ⟨fun _ => true, fun _ => .tomlSyntaxError "boom"⟩ "/cwd" "/home" none
      "/cwd/.devdash.toml" rfl).2.1) "boom" rfl

theorem contains_order_msg_wname (wname cname : String) (wval cval : Rat) :
    StrContains (threshold_order_msg wname wval cname cval) wname :=
  ⟨"system.",
   " (" ++ (toString wval ++ (") should be less than system."
     ++ (cname ++ (" (" ++ (toString cval ++ ")"))))),
   by simp [threshold_order_msg, String.append_assoc]⟩

theorem contains_order_msg_cname (wname cname : String) (wval cval : Rat) :
    StrContains (threshold_order_msg wname wval cname cval) cname :=
  ⟨"system." ++ (wname ++ (" (" ++ (toString wval
     ++ ") should be less than system."))),
   " (" ++ (toString cval ++ ")"),
   by simp [threshold_order_msg, String.append_assoc]⟩

theorem threshold_pair_mem (wname cname : String) (wval cval : Rat) :
    (¬(0 ≤ wval ∧ wval ≤ 100) →
      threshold_range_msg wname wval "60" ∈ threshold_pair_warnings wname wval cname cval)
    ∧ (¬(0 ≤ cval ∧ cval ≤ 100) →
      threshold_range_msg cname cval "80" ∈ threshold_pair_warnings wname wval cname cval)
    ∧ (wval ≥ cval →
      threshold_order_msg wname wval cname cval ∈ threshold_pair_warnings wname wval cname cval) := by
  refine ⟨?_, ?_, ?_⟩ <;> intro h <;> simp [threshold_pair_warnings, h]

theorem mem_validate_system_of_cpu (config : SystemConfig) (m : String)
    (h : m ∈ threshold_pair_warnings "cpu_warning_threshold"
      config.cpu_warning_threshold "cpu_critical_threshold"
      config.cpu_critical_threshold) : m ∈ validate_system config := by
  simp only [validate_system, List.mem_append]
  tauto

theorem mem_validate_system_of_ram (config : SystemConfig) (m : String)
    (h : m ∈ threshold_pair_warnings "ram_warning_threshold"
      config.ram_warning_threshold "ram_critical_threshold"
      config.ram_critical_threshold) : m ∈ validate_system config := by
  simp only [validate_system, List.mem_append]
  tauto

theorem mem_validate_system_of_disk (config : SystemConfig) (m : String)
    (h : m ∈ threshold_pair_warnings "disk_warning_threshold"
      config.disk_warning_threshold "disk_critical_threshold"
      config.disk_critical_threshold) : m ∈ validate_system config := by
  simp only [validate_system, List.mem_append]
  tauto

/-- C4: for every system configuration and each of the three
`(warning, critical)` threshold pairs, `validate_system` emits the
individual range warning for each value outside `[0, 100]`, and whenever
`warning >= critical` it additionally emits the cross-field message — a
message containing both field names — independently of whether either range
check also failed. -/
theorem C4_threshold_pair_warnings (config : SystemConfig) :
    (¬(0 ≤ config.cpu_warning_threshold ∧ config.cpu_warning_threshold ≤ 100) →
      threshold_range_msg "cpu_warning_threshold" config.cpu_warning_threshold "60"
        ∈ validate_system config)
    ∧ (¬(0 ≤ config.cpu_critical_threshold ∧ config.cpu_critical_threshold ≤ 100) →
      threshold_range_msg "cpu_critical_threshold" config.cpu_critical_threshold "80"
        ∈ validate_system config)
    ∧ (config.cpu_warning_threshold ≥ config.cpu_critical_threshold →
      threshold_order_msg "cpu_warning_threshold" config.cpu_warning_threshold
          "cpu_critical_threshold" config.cpu_critical_threshold
        ∈ validate_system config
      ∧ StrContains (threshold_order_msg "cpu_warning_threshold"
          config.cpu_warning_threshold "cpu_critical_threshold"
          config.cpu_critical_threshold) "cpu_warning_threshold"
      ∧ StrContains (threshold_order_msg "cpu_warning_threshold"
          config.cpu_warning_threshold "cpu_critical_threshold"
          config.cpu_critical_threshold) "cpu_critical_threshold")
    ∧ (¬(0 ≤ config.ram_warning_threshold ∧ config.ram_warning_threshold ≤ 100) →
      threshold_range_msg "ram_warning_threshold" config.ram_warning_threshold "60"
        ∈ validate_system config)
    ∧ (¬(0 ≤ config.ram_critical_threshold ∧ config.ram_critical_threshold ≤ 100) →
      threshold_range_msg "ram_critical_threshold" config.ram_critical_threshold "80"
        ∈ validate_system config)
    ∧ (config.ram_warning_threshold ≥ config.ram_critical_threshold →
      threshold_order_msg "ram_warning_threshold" config.ram_warning_threshold
          "ram_critical_threshold" config.ram_critical_threshold
        ∈ validate_system config
      ∧ StrContains (threshold_order_msg "ram_warning_threshold"
          config.ram_warning_threshold "ram_critical_threshold"
          config.ram_critical_threshold) "ram_warning_threshold"
      ∧ StrContains (threshold_order_msg "ram_warning_threshold"
          config.ram_warning_threshold "ram_critical_threshold"
          config.ram_critical_threshold) "ram_critical_threshold")
    ∧ (¬(0 ≤ config.disk_warning_threshold ∧ config.disk_warning_threshold ≤ 100) →
      threshold_range_msg "disk_warning_threshold" config.disk_warning_threshold "60"
        ∈ validate_system config)
    ∧ (¬(0 ≤ config.disk_critical_threshold ∧ config.disk_critical_threshold ≤ 100) →
      threshold_range_msg "disk_critical_threshold" config.disk_critical_threshold "80"
        ∈ validate_system config)
    ∧ (config.disk_warning_threshold ≥ config.disk_critical_threshold →
      threshold_order_msg "disk_warning_threshold" config.disk_warning_threshold
          "disk_critical_threshold" config.disk_critical_threshold
        ∈ validate_system config
      ∧ StrContains (threshold_order_msg "disk_warning_threshold"
          config.disk_warning_threshold "disk_critical_threshold"
          config.disk_critical_threshold) "disk_warning_threshold"
      ∧ StrContains (threshold_order_msg "disk_warning_threshold"
          config.disk_warning_threshold "disk_critical_threshold"
          config.disk_critical_threshold) "disk_critical_threshold") := by
  refine ⟨?_, ?_, ?_, ?_, ?_, ?_, ?_, ?_, ?_⟩
  · intro h
    exact mem_validate_system_of_cpu config _ ((threshold_pair_mem _ _ _ _).1 h)
  · intro h
    exact mem_validate_system_of_cpu config _ ((threshold_pair_mem _ _ _ _).2.1 h)
  · intro h
    exact ⟨mem_validate_system_of_cpu config _ ((threshold_pair_mem _ _ _ _).2.2 h),
      contains_order_msg_wname _ _ _ _, contains_order_msg_cname _ _ _ _⟩
  · intro h
    exact mem_validate_system_of_ram config _ ((threshold_pair_mem _ _ _ _).1 h)
  · intro h
    exact mem_validate_system_of_ram config _ ((threshold_pair_mem _ _ _ _).2.1 h)
  · intro h
    exact ⟨mem_validate_system_of_ram config _ ((threshold_pair_mem _ _ _ _).2.2 h),
      contains_order_msg_wname _ _ _ _, contains_order_msg_cname _ _ _ _⟩
  · intro h
    exact mem_validate_system_of_disk config _ ((threshold_pair_mem _ _ _ _).1 h)
  · intro h
    exact mem_validate_system_of_disk config _ ((threshold_pair_mem _ _ _ _).2.1 h)
  · intro h
    exact ⟨mem_validate_system_of_disk config _ ((threshold_pair_mem _ _ _ _).2.2 h),
      contains_order_msg_wname _ _ _ _, contains_order_msg_cname _ _ _ _⟩

/-- Witness for C4: a configuration whose CPU thresholds are inverted
(`warning = 90 >= critical = 80`, both inside `[0, 100]`) triggers the
cross-field message, and a RAM warning threshold of 150 triggers its
individual range message. -/
theorem C4_witness :
    threshold_order_msg "cpu_warning_threshold" 90 "cpu_critical_threshold" 80
      ∈ validate_system { cpu_warning_threshold := 90, ram_warning_threshold := 150 }
    ∧ threshold_range_msg "ram_warning_threshold" 150 "60"
      ∈ validate_system { cpu_warning_threshold := 90, ram_warning_threshold := 150 } := by
  constructor
  · exact ((C4_threshold_pair_warnings
      { cpu_warning_threshold := 90, ram_warning_threshold := 150 }).2.2.1
      (by norm_num)).1
  · exact (C4_threshold_pair_warnings
      { cpu_warning_threshold := 90, ram_warning_threshold := 150 }).2.2.2.1
      (by norm_num)

/-- C5: `migrate_legacy_task` is idempotent up to the `created_at` backfill
— after one migration every schema field (including `created_at`) is
present, so a second migration (even at a different current timestamp)
changes nothing — and migration never alters a schema field that is already
present in the input record: its value is carried over unchanged. -/
theorem C5_migrate_idempotent_and_preserving (now now2 : String)
    (old_task : List (String × PyValue)) (k : String) (v : PyValue)
    (hk : k ∈ ["id", "text", "done", "priority", "due_date", "categories",
      "created_at"])
    (hv : dict_find old_task k = some v) :
    migrate_legacy_task now2 (migrate_legacy_task now old_task)
      = migrate_legacy_task now old_task
    ∧ dict_find (migrate_legacy_task now old_task) k = some v := by
  refine ⟨rfl, ?_⟩
  fin_cases hk <;> simp [migrate_legacy_task, dict_find, dict_get, hv]

/-- Witness for C5: migrating the legacy record
`{"id": 1, "text": "Task", "done": true}` twice equals migrating it once,
and the migrated record keeps `done = true` unchanged. -/
theorem C5_witness :
    migrate_legacy_task "T2" (migrate_legacy_task "T1"
        [("id", .vInt 1), ("text", .vStr "Task"), ("done", .vBool true)])
      = migrate_legacy_task "T1"
        [("id", .vInt 1), ("text", .vStr "Task"), ("done", .vBool true)]
    ∧ dict_find (migrate_legacy_task "T1"
        [("id", .vInt 1), ("text", .vStr "Task"), ("done", .vBool true)]) "done"
      = some (.vBool true) :=
  C5_migrate_idempotent_and_preserving "T1" "T2"
    [("id", .vInt 1), ("text", .vStr "Task"), ("done", .vBool true)]
    "done" (.vBool true) (by simp) rfl

/-- C6: for a task with a parseable due date: if the task is not done and
the due date is exactly `w ≥ 0` days after today, then `is_due_soon w` is
true and `is_overdue` is false; a due date before today is never due soon; a
due date today or later is never overdue; and `is_due_soon` and
`is_overdue` are mutually exclusive. -/
theorem C6_due_soon_overdue_exclusive (today w : Int) (t : Task) (s : String)
    (due : Int) (hdd : t.due_date = some s)
    (hparse : parseISODate s = some due) :
    (t.done = false → due = today + w → 0 ≤ w →
      t.is_due_soon today w = true ∧ t.is_overdue today = false)
    ∧ (due < today → t.is_due_soon today w = false)
    ∧ (today ≤ due → t.is_overdue today = false)
    ∧ (t.is_due_soon today w = true → t.is_overdue today = false) := by
  refine ⟨?_, ?_, ?_, ?_⟩
  · intro hdone hdue hw
    subst hdue
    constructor
    · simp [Task.is_due_soon, hdd, hdone, hparse]
      omega
    · simp [Task.is_overdue, hdd, hdone, hparse]
      omega
  · intro hlt
    simp [Task.is_due_soon, hdd, hparse]
    intro _
    omega
  · intro hle
    simp [Task.is_overdue, hdd, hparse]
    intro _
    omega
  · intro h
    simp [Task.is_due_soon, hdd, hparse] at h
    simp [Task.is_overdue, hdd, hparse, h.1]
    omega

/-- Witness for C6: a not-done task due `2025-01-04`, three days after
today `2025-01-01`, is due soon for a three-day window and is not
overdue. -/
theorem C6_witness :
    ({ id := 1, text := "x", due_date := some "2025-01-04" } : Task).is_due_soon
        (daysFromCivil 2025 1 1) 3 = true
    ∧ ({ id := 1, text := "x", due_date := some "2025-01-04" } : Task).is_overdue
        (daysFromCivil 2025 1 1) = false :=
  (C6_due_soon_overdue_exclusive (daysFromCivil 2025 1 1) 3
    { id := 1, text := "x", due_date := some "2025-01-04" } "2025-01-04"
    (daysFromCivil 2025 1 4) rfl rfl).1 rfl (by decide) (by decide)

/-- C7: validating the configuration built entirely from schema defaults
produces no warnings: no range, cross-field or enum check of the Git,
System, Tasks, Timer or UI sections fires on any default value. -/
theorem C7_defaults_validate_clean :
    validate_config get_default_config = [] := by
  norm_num [validate_config, get_default_config, validate_git, validate_system,
    validate_tasks, validate_timer, validate_ui, threshold_pair_warnings]

theorem string_data_append (a b : String) :
    (a ++ b).data = a.data ++ b.data := rfl

theorem not_mem_empty_header_lines (x now title : String) :
    ("#" ++ ("#" ++ x)) ∉
      ["# " ++ title, "", "*Exported: " ++ now ++ "*", "",
       "Total tasks: 0 | Completed: 0", "", "---", ""] := by
  intro hmem
  simp only [List.mem_cons, List.not_mem_nil, or_false] at hmem
  rcases hmem with h | h | h | h | h | h | h | h <;>
    · have hd := congrArg String.data h
      simp [string_data_append] at hd

/-- C8: exporting an empty task list in the grouped layout yields exactly
the header block — which contains the "Total tasks: 0 | Completed: 0" line —
and none of the four priority section headers (nor any other "## "-prefixed
section line) occurs: the empty priority groups are omitted entirely. -/
theorem C8_grouped_export_empty (today : Int) (now title : String) :
    grouped_by_priority_lines today now [] title
      = ["# " ++ title, "", "*Exported: " ++ now ++ "*", "",
         "Total tasks: 0 | Completed: 0", "", "---", ""]
    ∧ StrContains (export_grouped_by_priority today now [] title)
        "Total tasks: 0 | Completed: 0"
    ∧ (∀ x : String,
        ("#" ++ ("#" ++ x)) ∉ grouped_by_priority_lines today now [] title)
    ∧ "## 🔴 High Priority" ∉ grouped_by_priority_lines today now [] title
    ∧ "## 🟡 Medium Priority" ∉ grouped_by_priority_lines today now [] title
    ∧ "## 🟢 Low Priority" ∉ grouped_by_priority_lines today now [] title
    ∧ "## ⚪ No Priority" ∉ grouped_by_priority_lines today now [] title := by
  have h0 : grouped_by_priority_lines today now [] title
      = ["# " ++ title, "", "*Exported: " ++ now ++ "*", "",
         "Total tasks: 0 | Completed: 0", "", "---", ""] := rfl
  refine ⟨h0, ?_, ?_, ?_, ?_, ?_, ?_⟩
  · refine ⟨"# " ++ title ++ "\n" ++ "\n" ++ "*Exported: " ++ now ++ "*" ++ "\n" ++ "\n",
      "\n" ++ "\n" ++ "---" ++ "\n", ?_⟩
    rw [export_grouped_by_priority, h0]
    simp [String.intercalate, String.intercalate.go, String.append_assoc]
    rw [show ("\n\n*Exported: " : String) = "\n\n" ++ "*Exported: " from rfl,
      String.append_assoc]
  · intro x
    rw [h0]
    exact not_mem_empty_header_lines x now title
  · rw [h0]
    exact not_mem_empty_header_lines " 🔴 High Priority" now title
  · rw [h0]
    exact not_mem_empty_header_lines " 🟡 Medium Priority" now title
  · rw [h0]
    exact not_mem_empty_header_lines " 🟢 Low Priority" now title
  · rw [h0]
    exact not_mem_empty_header_lines " ⚪ No Priority" now title

/-- Witness for C8 at a concrete title and timestamp: the grouped export of
the empty task list is exactly the header block. -/
theorem C8_witness :
    grouped_by_priority_lines 0 "2025-01-01 00:00" [] "DevDash Tasks"
      = ["# DevDash Tasks", "", "*Exported: 2025-01-01 00:00*", "",
         "Total tasks: 0 | Completed: 0", "", "---", ""]
    ∧ "## 🔴 High Priority" ∉
        grouped_by_priority_lines 0 "2025-01-01 00:00" [] "DevDash Tasks" :=
  ⟨by
    rw [(C8_grouped_export_empty 0 "2025-01-01 00:00" "DevDash Tasks").1]
    rfl,
   (C8_grouped_export_empty 0 "2025-01-01 00:00" "DevDash Tasks").2.2.2.1⟩

/-- C9: `export_to_markdown` renders the flat-list layout for every
`format_type` other than `"grouped"` and `"category"`; in particular the
values `"simple"` and `"detailed"`, which `validate_tasks` accepts as valid
`tasks.export_format` values without warning, both fall through to the flat
layout — there is no distinct simple or detailed rendering. -/
theorem C9_non_grouped_formats_render_flat (today : Int) (now : String)
    (tasks : List Task) (title fmt : String) (h1 : fmt ≠ "grouped")
    (h2 : fmt ≠ "category") :
    export_to_markdown today now tasks fmt title = export_flat today now tasks title
    ∧ validate_tasks { export_format := "simple" } = []
    ∧ validate_tasks { export_format := "detailed" } = [] := by
  refine ⟨?_, by decide, by decide⟩
  simp [export_to_markdown, h1, h2]

/-- Witness for C9: the validator-accepted formats `"simple"` and
`"detailed"` both produce the flat layout. -/
theorem C9_witness :
    export_to_markdown 0 "TS" [] "simple" "T" = export_flat 0 "TS" [] "T"
    ∧ export_to_markdown 0 "TS" [] "detailed" "T" = export_flat 0 "TS" [] "T"
    ∧ validate_tasks { export_format := "simple" } = [] :=
  ⟨(C9_non_grouped_formats_render_flat 0 "TS" [] "T" "simple"
      (by decide) (by decide)).1,
   (C9_non_grouped_formats_render_flat 0 "TS" [] "T" "detailed"
      (by decide) (by decide)).1,
   (C9_non_grouped_formats_render_flat 0 "TS" [] "T" "simple"
      (by decide) (by decide)).2.1⟩

/-- C10: the category export groups by the exact, case-sensitive category
string — the tasks tagged `"Work"` and `"work"` land in two distinct
sections with distinct headers — even though `has_category` treats those
same two tags as equal under its case-insensitive comparison. -/
theorem C10_category_export_case_sensitive :
    "## 📁 Work" ∈ grouped_by_category_lines 0 "TS"
        [{ id := 1, text := "a", categories := ["Work"] },
         { id := 2, text := "b", categories := ["work"] }] "T"
    ∧ "## 📁 work" ∈ grouped_by_category_lines 0 "TS"
        [{ id := 1, text := "a", categories := ["Work"] },
         { id := 2, text := "b", categories := ["work"] }] "T"
    ∧ "## 📁 Work" ≠ "## 📁 work"
    ∧ ({ id := 1, text := "a", categories := ["Work"] } : Task).has_category
        "work" = true
    ∧ ({ id := 2, text := "b", categories := ["work"] } : Task).has_category
        "Work" = true := by
  refine ⟨?_, ?_, by decide, by decide, by decide⟩ <;> decide

end DevDash
